import Mathlib

/-!
Shallow Lean embedding of the core pipeline of the `gliderclaude` poker-vision
repository (`poker_ai_mvp/src`): the game-state reconstructor
(`vision/state_parser.py`), the card detector dispatch (`vision/detection.py`),
the OCR front end (`vision/ocr.py`), the capture failure counter
(`vision/capture.py`), the serialization layer (`data/models.py`) and the
deduplicating error logger (`data/error_logger.py`).

Modelling conventions:
* Python `str` is `String`, Python `int` is `ℤ` (`Nat` where the source value
  is a count), Python `float` confidences and wall-clock instants are `ℚ`
  (no floating-point arithmetic is performed on them in the modelled code,
  only comparisons and copies).
* Image-dependent subroutines (pixel analysis, the YOLO model, the PaddleOCR
  engine, mock-fallback brightness checks) are passed to the modelled
  functions as explicit inputs: the modelled control flow around them is
  transcribed from the source.
* Python `datetime` values are a `DateTime` structure of calendar fields;
  `strftime` is modelled field by field.  ISO-8601 (de)serialization of a
  `datetime` is a bijection on datetime values and is modelled as carrying
  the value itself.
-/

/-- `data/models.py` `GamePhase` enum. -/
inductive GamePhase where
  | PREFLOP
  | FLOP
  | TURN
  | RIVER
deriving DecidableEq, Repr

/-- The `.value` string of each `GamePhase` member (`data/models.py`). -/
def GamePhase.value : GamePhase → String
  | .PREFLOP => "preflop"
  | .FLOP => "flop"
  | .TURN => "turn"
  | .RIVER => "river"

/-- `GamePhase(data["game_phase"])` in `GameState.from_dict`: enum lookup by
value, raising (modelled as `none`) on an unknown string. -/
def GamePhase.ofValue : String → Option GamePhase
  | "preflop" => some .PREFLOP
  | "flop" => some .FLOP
  | "turn" => some .TURN
  | "river" => some .RIVER
  | _ => none

/-- Python `datetime`: calendar fields down to microseconds. -/
structure DateTime where
  year : Nat
  month : Nat
  day : Nat
  hour : Nat
  minute : Nat
  second : Nat
  microsecond : Nat
deriving DecidableEq, Repr

/-- `data/models.py` `Card` dataclass: rank and suit are plain strings. -/
structure Card where
  rank : String
  suit : String
  confidence : ℚ
  position : ℤ × ℤ
deriving DecidableEq, Repr

/-- `data/models.py` `Player` dataclass. -/
structure Player where
  position : ℤ
  name : String
  stack_size : ℤ
  hole_cards : List Card
  current_bet : ℤ
  is_active : Bool
  is_current : Bool
deriving DecidableEq, Repr

/-- `data/models.py` `GameState` dataclass.  `betting_options` is a
string-to-int dictionary in every construction site of the source
(`_extract_betting_options`), modelled as an association list. -/
structure GameState where
  timestamp : DateTime
  hand_id : String
  game_phase : GamePhase
  pot_size : ℤ
  community_cards : List Card
  players : List Player
  timer_remaining : ℤ
  available_actions : List String
  betting_options : List (String × ℤ)
deriving DecidableEq, Repr

/-- `vision/state_parser.py` `GameStateParser._determine_game_phase`
(lines 265-279).  The second component records whether the
`logger.warning` branch for an unexpected community-card count was taken. -/
def determine_game_phase (community_cards : List Card) : GamePhase × Bool :=
  let card_count := community_cards.length
  if card_count = 0 then
    (GamePhase.PREFLOP, false)
  else if card_count = 3 then
    (GamePhase.FLOP, false)
  else if card_count = 4 then
    (GamePhase.TURN, false)
  else if card_count = 5 then
    (GamePhase.RIVER, false)
  else
    (GamePhase.PREFLOP, true)

/-- One OCR text element as produced by `TextRecognizer.extract_text`
(`vision/ocr.py`): recognized text, confidence, bounding box corner points
and the computed center point. -/
structure TextElement where
  text : String
  confidence : ℚ
  bbox : List (ℤ × ℤ)
  center : ℤ × ℤ
deriving DecidableEq, Repr

/-- `vision/state_parser.py` `GameStateParser._is_in_region` (lines 217-221):
`x <= cx <= x + w and y <= cy <= y + h`. -/
def is_in_region (center : ℤ × ℤ) (region : ℤ × ℤ × ℤ × ℤ) : Bool :=
  let (x, y, w, h) := region
  let (cx, cy) := center
  decide (x ≤ cx ∧ cx ≤ x + w ∧ y ≤ cy ∧ cy ≤ y + h)

/-- C1: For every list of community cards, the reconstructor's phase function
maps a card count of 0 to PREFLOP, 3 to FLOP, 4 to TURN and 5 to RIVER; any
other count returns PREFLOP with a logged warning, and the result is
determined solely by `len(community_cards)`. -/
theorem determine_game_phase_total (cs : List Card) :
    (cs.length = 0 → determine_game_phase cs = (GamePhase.PREFLOP, false)) ∧
    (cs.length = 3 → determine_game_phase cs = (GamePhase.FLOP, false)) ∧
    (cs.length = 4 → determine_game_phase cs = (GamePhase.TURN, false)) ∧
    (cs.length = 5 → determine_game_phase cs = (GamePhase.RIVER, false)) ∧
    (cs.length ≠ 0 ∧ cs.length ≠ 3 ∧ cs.length ≠ 4 ∧ cs.length ≠ 5 →
      determine_game_phase cs = (GamePhase.PREFLOP, true)) ∧
    (∀ cs' : List Card, cs.length = cs'.length →
      determine_game_phase cs = determine_game_phase cs') := by
  unfold determine_game_phase
  refine ⟨?_, ?_, ?_, ?_, ?_, ?_⟩
  · intro h; simp [h]
  · intro h; simp [h]
  · intro h; simp [h]
  · intro h; simp [h]
  · rintro ⟨h0, h3, h4, h5⟩; simp [h0, h3, h4, h5]
  · intro cs' h; simp [h]

/-- A sample card used to build concrete inputs in witnesses. -/
def sampleCard : Card := { rank := "A", suit := "♠", confidence := 9/10, position := (0, 0) }

/-- Witness for C1: concrete phase computations obtained from
`determine_game_phase_total`. -/
theorem determine_game_phase_total_witness :
    determine_game_phase [sampleCard, sampleCard, sampleCard] = (GamePhase.FLOP, false) ∧
    determine_game_phase [sampleCard] = (GamePhase.PREFLOP, true) :=
  ⟨(determine_game_phase_total [sampleCard, sampleCard, sampleCard]).2.1 (by decide),
   (determine_game_phase_total [sampleCard]).2.2.2.2.1 (by decide)⟩

/-- C6: a text element's attribution test `is_in_region` holds exactly when
the element's computed center point lies (inclusively) inside the rectangle,
and is unchanged under any change of the element's bounding box. -/
theorem is_in_region_center_containment (e : TextElement) (x y w h : ℤ) :
    (is_in_region e.center (x, y, w, h) = true ↔
      x ≤ e.center.1 ∧ e.center.1 ≤ x + w ∧ y ≤ e.center.2 ∧ e.center.2 ≤ y + h) ∧
    (∀ b : List (ℤ × ℤ),
      is_in_region (TextElement.center { e with bbox := b }) (x, y, w, h) =
        is_in_region e.center (x, y, w, h)) := by
  constructor
  · simp [is_in_region]
  · intro b; rfl

/-- `data/error_logger.py` `ErrorSeverity` enum. -/
inductive ErrorSeverity where
  | CRITICAL
  | HIGH
  | MEDIUM
  | LOW
  | INFO
deriving DecidableEq, Repr

/-- The error-related fields of `vision/capture.py` `ScreenCapture`:
`error_count` (total failures) and `consecutive_errors` (current streak). -/
structure CaptureState where
  error_count : Nat
  consecutive_errors : Nat
deriving DecidableEq, Repr

/-- `vision/capture.py` `ScreenCapture.capture_single_frame` (lines 78-125),
restricted to its error bookkeeping: `success` tells whether the screenshot
grab raised.  On success the streak resets to 0 and nothing is reported; on
failure both counters increment and a severity derived from the new streak is
reported through `log_capture_error`. -/
def capture_single_frame (st : CaptureState) (success : Bool) :
    CaptureState × Option ErrorSeverity :=
  if success then
    ({ st with consecutive_errors := 0 }, none)
  else
    let st' : CaptureState :=
      { error_count := st.error_count + 1,
        consecutive_errors := st.consecutive_errors + 1 }
    let severity :=
      if st'.consecutive_errors > 10 then ErrorSeverity.CRITICAL
      else if st'.consecutive_errors > 5 then ErrorSeverity.HIGH
      else ErrorSeverity.MEDIUM
    (st', some severity)

/-- A run of acquisition attempts: threads `capture_single_frame` through a
list of outcomes and collects the reported severities in order. -/
def run_capture (st : CaptureState) : List Bool → CaptureState × List ErrorSeverity
  | [] => (st, [])
  | outcome :: rest =>
    let (st', sev) := capture_single_frame st outcome
    let (stFinal, sevs) := run_capture st' rest
    (stFinal, (sev.toList) ++ sevs)

/-- C4: the consecutive-failure counter resets to 0 on any success and
increments on each failure, and the severity reported on a failure that makes
the streak `n` is MEDIUM for `1 ≤ n ≤ 5`, HIGH for `6 ≤ n ≤ 10` and CRITICAL
for `n > 10`; in particular runs of 3, 7 and 12 consecutive failures from a
fresh streak report MEDIUM, HIGH and CRITICAL last. -/
theorem capture_failure_severity (st : CaptureState) :
    (capture_single_frame st true).1.consecutive_errors = 0 ∧
    (capture_single_frame st false).1.consecutive_errors = st.consecutive_errors + 1 ∧
    (1 ≤ st.consecutive_errors + 1 ∧ st.consecutive_errors + 1 ≤ 5 →
      (capture_single_frame st false).2 = some ErrorSeverity.MEDIUM) ∧
    (6 ≤ st.consecutive_errors + 1 ∧ st.consecutive_errors + 1 ≤ 10 →
      (capture_single_frame st false).2 = some ErrorSeverity.HIGH) ∧
    (10 < st.consecutive_errors + 1 →
      (capture_single_frame st false).2 = some ErrorSeverity.CRITICAL) ∧
    ((run_capture ⟨0, 0⟩ (List.replicate 3 false)).2.getLast? = some ErrorSeverity.MEDIUM) ∧
    ((run_capture ⟨0, 0⟩ (List.replicate 7 false)).2.getLast? = some ErrorSeverity.HIGH) ∧
    ((run_capture ⟨0, 0⟩ (List.replicate 12 false)).2.getLast? = some ErrorSeverity.CRITICAL) := by
  refine ⟨rfl, rfl, ?_, ?_, ?_, by decide, by decide, by decide⟩
  · rintro ⟨-, h5⟩
    have h10 : ¬ st.consecutive_errors + 1 > 10 := by omega
    have h5' : ¬ st.consecutive_errors + 1 > 5 := by omega
    simp [capture_single_frame, h10, h5']
  · rintro ⟨h6, h10⟩
    have h10' : ¬ st.consecutive_errors + 1 > 10 := by omega
    have h5' : st.consecutive_errors + 1 > 5 := by omega
    simp [capture_single_frame, h10', h5']
  · intro h
    simp [capture_single_frame, h]

/-- Witness for C4: the severity escalation evaluated at concrete streaks. -/
theorem capture_failure_severity_witness :
    (capture_single_frame ⟨4, 2⟩ false).2 = some ErrorSeverity.MEDIUM ∧
    (capture_single_frame ⟨9, 6⟩ false).2 = some ErrorSeverity.HIGH ∧
    (capture_single_frame ⟨20, 11⟩ false).2 = some ErrorSeverity.CRITICAL ∧
    (capture_single_frame ⟨20, 11⟩ true).1.consecutive_errors = 0 :=
  ⟨(capture_failure_severity ⟨4, 2⟩).2.2.1 (by decide),
   (capture_failure_severity ⟨9, 6⟩).2.2.2.1 (by decide),
   (capture_failure_severity ⟨20, 11⟩).2.2.2.2.1 (by decide),
   (capture_failure_severity ⟨20, 11⟩).1⟩

/-- `vision/detection.py` `CardDetector._fallback_card_detection`
(lines 54-83): mock cards chosen by the region's coordinates. -/
def fallback_card_detection (region : Option (ℤ × ℤ × ℤ × ℤ)) : List Card :=
  match region with
  | some (x, y, _, _) =>
    if x > 400 ∧ x < 700 then
      [{ rank := "4", suit := "♦", confidence := 95/100, position := (570, 375) },
       { rank := "10", suit := "♥", confidence := 93/100, position := (620, 375) },
       { rank := "10", suit := "♣", confidence := 97/100, position := (670, 375) }]
    else if y > 450 then
      [{ rank := "Q", suit := "♦", confidence := 92/100, position := (600, 580) },
       { rank := "4", suit := "♥", confidence := 94/100, position := (650, 580) }]
    else []
  | none => []

/-- `vision/detection.py` `CardDetector.detect_cards` (lines 40-52).
`yolo` models `self.yolo_detector` together with the outcome of calling it:
`none` when the detector failed to initialize, `some (.error ())` when the
call raises, `some (.ok cards)` when it returns `cards`.  The second
component of the result records whether `_fallback_card_detection` was
invoked. -/
def detect_cards (yolo : Option (Except Unit (List Card)))
    (region : Option (ℤ × ℤ × ℤ × ℤ)) : List Card × Bool :=
  match yolo with
  | some (Except.ok cards) =>
    if cards ≠ [] then (cards, false)
    else (fallback_card_detection region, true)
  | some (Except.error _) => (fallback_card_detection region, true)
  | none => (fallback_card_detection region, true)

/-- Counterexample to C3 as stated: with the primary detector running
successfully and returning zero detections over the community-cards region,
`detect_cards` invokes the fallback detector and returns its three mock
cards instead of the empty primary result. -/
theorem detect_cards_empty_primary_falls_back :
    detect_cards (some (Except.ok [])) (some (450, 100, 100, 100)) =
      ([{ rank := "4", suit := "♦", confidence := 95/100, position := (570, 375) },
        { rank := "10", suit := "♥", confidence := 93/100, position := (620, 375) },
        { rank := "10", suit := "♣", confidence := 97/100, position := (670, 375) }], true) ∧
    (detect_cards (some (Except.ok [])) (some (450, 100, 100, 100))).1 ≠ [] := by
  have h1 : detect_cards (some (Except.ok [])) (some (450, 100, 100, 100)) =
      ([{ rank := "4", suit := "♦", confidence := 95/100, position := (570, 375) },
        { rank := "10", suit := "♥", confidence := 93/100, position := (620, 375) },
        { rank := "10", suit := "♣", confidence := 97/100, position := (670, 375) }], true) := rfl
  refine ⟨h1, ?_⟩
  rw [h1]
  simp

/-- C3 (amended): the fallback detector is invoked exactly when the primary
detector is unavailable, raises, or returns zero detections; a non-empty
primary result is returned unchanged without the fallback. -/
theorem detect_cards_fallback_condition (region : Option (ℤ × ℤ × ℤ × ℤ))
    (cards : List Card) (e : Unit) :
    (cards ≠ [] → detect_cards (some (Except.ok cards)) region = (cards, false)) ∧
    detect_cards (some (Except.ok [])) region = (fallback_card_detection region, true) ∧
    detect_cards (some (Except.error e)) region = (fallback_card_detection region, true) ∧
    detect_cards none region = (fallback_card_detection region, true) := by
  refine ⟨?_, rfl, rfl, rfl⟩
  intro h
  simp [detect_cards, h]

/-- Witness for amended C3: a non-empty primary result is passed through. -/
theorem detect_cards_fallback_condition_witness :
    detect_cards (some (Except.ok [sampleCard])) (some (450, 100, 100, 100)) =
      ([sampleCard], false) :=
  (detect_cards_fallback_condition (some (450, 100, 100, 100)) [sampleCard] ()).1 (by decide)

/-- The timing field of `vision/state_parser.py` `GameStateParser`
(`__init__`, lines 26-30): `_last_parse_time`, with `_parse_timeout = 0.1`
fixed.  Wall-clock instants are `ℚ` seconds (`time.time()`). -/
structure ParserState where
  last_parse_time : ℚ
deriving DecidableEq, Repr

/-- `vision/state_parser.py` `GameStateParser.parse_game_state` (lines 34-96),
with the body of the `try` block abstracted into its outcome: `extraction`
is `some gs` when the extraction steps build the game state `gs` and `none`
when one of them raises.  Returns the parse result, the new parser state and
whether extraction was performed at all.  When the call arrives less than
0.1 s after `_last_parse_time` the function returns `None` before any
extraction; `_last_parse_time` is set to the call's start time only on a
successfully completed parse. -/
def parse_game_state (st : ParserState) (current_time : ℚ)
    (extraction : Option GameState) : Option GameState × ParserState × Bool :=
  if current_time - st.last_parse_time < 1/10 then
    (none, st, false)
  else
    match extraction with
    | some gs => (some gs, { last_parse_time := current_time }, true)
    | none => (none, st, true)

/-- C10: a `parse_game_state` call made less than 0.1 s after the previous
successfully completed parse returns no `GameState` and performs no
extraction, whatever extraction would have produced; outside the rate-limit
window a successful extraction is returned and stamps the parse time. -/
theorem parse_game_state_rate_limited (st : ParserState) (current_time : ℚ)
    (extraction : Option GameState) :
    (current_time - st.last_parse_time < 1/10 →
      parse_game_state st current_time extraction = (none, st, false)) ∧
    (¬ current_time - st.last_parse_time < 1/10 → ∀ gs,
      parse_game_state st current_time (some gs) =
        (some gs, { last_parse_time := current_time }, true)) := by
  constructor
  · intro h
    unfold parse_game_state
    rw [if_pos h]
  · intro h gs
    unfold parse_game_state
    rw [if_neg h]

/-- A minimal concrete `GameState` used by witnesses. -/
def sampleGameState : GameState :=
  { timestamp := ⟨2025, 1, 1, 12, 0, 0, 0⟩,
    hand_id := "hand_0",
    game_phase := GamePhase.PREFLOP,
    pot_size := 0,
    community_cards := [],
    players := [],
    timer_remaining := 0,
    available_actions := ["fold", "call", "raise"],
    betting_options := [("min_raise", 10), ("max_raise", 100), ("pot_size", 80)] }

/-- Witness for C10: 0.05 s after a completed parse, even a successful
extraction outcome yields no state and no extraction work. -/
theorem parse_game_state_rate_limited_witness :
    parse_game_state ⟨100⟩ (100 + 1/20) (some sampleGameState) = (none, ⟨100⟩, false) :=
  (parse_game_state_rate_limited ⟨100⟩ (100 + 1/20) (some sampleGameState)).1 (by norm_num)

/-- Zero-padding to two digits, as `strftime` does for `%m %d %H %M %S`. -/
def pad2 (n : Nat) : String :=
  if n < 10 then "0" ++ toString n else toString n

/-- `timestamp.strftime("%Y%m%d_%H%M%S")`: the timestamp formatted down to
whole seconds; sub-second information is discarded. -/
def strftimeYmdHMS (t : DateTime) : String :=
  toString t.year ++ pad2 t.month ++ pad2 t.day ++ "_" ++
    pad2 t.hour ++ pad2 t.minute ++ pad2 t.second

/-- Python's built-in string `hash`.  Its value is process-seeded and
implementation-defined; it is modelled as a concrete deterministic rolling
hash.  No property proved below depends on the choice: equal input strings
give equal hashes, which is all `hash` guarantees across one process. -/
def pyHash (s : String) : Nat :=
  s.foldl (fun acc c => (acc * 131 + c.toNat) % (2 ^ 61 - 1)) 7

/-- The string hashed by `_generate_hand_id`
(`vision/state_parser.py` line 289):
`f"{timestamp_str}_{card_count}_{player_count}"`. -/
def hand_id_hash_input (timestamp : DateTime) (community_cards : List Card)
    (players : List Player) : String :=
  strftimeYmdHMS timestamp ++ "_" ++ toString community_cards.length ++ "_" ++
    toString players.length

/-- `vision/state_parser.py` `GameStateParser._generate_hand_id`
(lines 281-292): `f"hand_{hash(hash_input) % 1000000}"`. -/
def generate_hand_id (timestamp : DateTime) (community_cards : List Card)
    (players : List Player) : String :=
  "hand_" ++ toString (pyHash (hand_id_hash_input timestamp community_cards players) % 1000000)

/-- A 3-player table summary used in the C2 evaluation. -/
def samplePlayers : List Player :=
  [{ position := 0, name := "alex", stack_size := 250, hole_cards := [],
     current_bet := 0, is_active := true, is_current := true },
   { position := 1, name := "bob", stack_size := 500, hole_cards := [],
     current_bet := 0, is_active := true, is_current := false },
   { position := 2, name := "chris", stack_size := 750, hole_cards := [],
     current_bet := 0, is_active := true, is_current := false }]

/-- A flop board. -/
def sampleBoardA : List Card :=
  [{ rank := "4", suit := "♦", confidence := 95/100, position := (570, 375) },
   { rank := "10", suit := "♥", confidence := 93/100, position := (620, 375) },
   { rank := "10", suit := "♣", confidence := 97/100, position := (670, 375) }]

/-- A different flop board of the same size. -/
def sampleBoardB : List Card :=
  [{ rank := "A", suit := "♠", confidence := 95/100, position := (570, 375) },
   { rank := "K", suit := "♠", confidence := 93/100, position := (620, 375) },
   { rank := "Q", suit := "♠", confidence := 97/100, position := (670, 375) }]

/-- C2 evaluated on the code: `_generate_hand_id` hashes only the
second-resolution timestamp and the card/player counts.  Two frames captured
in the same wall-clock second with entirely different three-card boards get
the same `hand_id`, while two frames of one hand one second apart hash
different inputs because the per-frame timestamp leaks into the key. -/
theorem generate_hand_id_timestamp_keyed :
    generate_hand_id ⟨2025, 1, 1, 12, 0, 0, 0⟩ sampleBoardA samplePlayers =
      generate_hand_id ⟨2025, 1, 1, 12, 0, 0, 0⟩ sampleBoardB samplePlayers ∧
    sampleBoardA ≠ sampleBoardB ∧
    hand_id_hash_input ⟨2025, 1, 1, 12, 0, 0, 0⟩ sampleBoardA samplePlayers ≠
      hand_id_hash_input ⟨2025, 1, 1, 12, 0, 1, 0⟩ sampleBoardA samplePlayers := by
  refine ⟨rfl, ?_, by decide⟩
  intro h
  have : sampleBoardA.head? = sampleBoardB.head? := by rw [h]
  simp [sampleBoardA, sampleBoardB] at this

/-- The dictionary produced by `Card.to_dict` (`data/models.py` lines 52-58). -/
structure CardDict where
  rank : String
  suit : String
  confidence : ℚ
  position : ℤ × ℤ
deriving DecidableEq, Repr

/-- `Card.to_dict`. -/
def Card.to_dict (c : Card) : CardDict :=
  { rank := c.rank, suit := c.suit, confidence := c.confidence, position := c.position }

/-- `Card.from_dict` (`data/models.py` lines 60-67).  The dictionaries this
model manipulates always carry every key, so the `data.get(..., default)`
defaults never fire; `tuple(...)` on the position pair is the identity. -/
def Card.from_dict (d : CardDict) : Card :=
  { rank := d.rank, suit := d.suit, confidence := d.confidence, position := d.position }

/-- The dictionary produced by `Player.to_dict` (`data/models.py`). -/
structure PlayerDict where
  position : ℤ
  name : String
  stack_size : ℤ
  hole_cards : List CardDict
  current_bet : ℤ
  is_active : Bool
  is_current : Bool
deriving DecidableEq, Repr

/-- `Player.to_dict` (`data/models.py` lines 81-90). -/
def Player.to_dict (p : Player) : PlayerDict :=
  { position := p.position, name := p.name, stack_size := p.stack_size,
    hole_cards := p.hole_cards.map Card.to_dict, current_bet := p.current_bet,
    is_active := p.is_active, is_current := p.is_current }

/-- `Player.from_dict` (`data/models.py` lines 92-102). -/
def Player.from_dict (d : PlayerDict) : Player :=
  { position := d.position, name := d.name, stack_size := d.stack_size,
    hole_cards := d.hole_cards.map Card.from_dict, current_bet := d.current_bet,
    is_active := d.is_active, is_current := d.is_current }

/-- The dictionary produced by `GameState.to_dict` (`data/models.py`).
The `timestamp` entry holds `timestamp.isoformat()`; ISO-8601 text is in
bijection with `datetime` values, so the entry is modelled as the datetime
value itself, and `datetime.fromisoformat` in `from_dict` as reading it
back. -/
structure GameStateDict where
  timestamp : DateTime
  hand_id : String
  game_phase : String
  pot_size : ℤ
  community_cards : List CardDict
  players : List PlayerDict
  timer_remaining : ℤ
  available_actions : List String
  betting_options : List (String × ℤ)
deriving DecidableEq, Repr

/-- `GameState.to_dict` (`data/models.py` lines 118-129): the phase is
serialized as its `.value` string. -/
def GameState.to_dict (gs : GameState) : GameStateDict :=
  { timestamp := gs.timestamp,
    hand_id := gs.hand_id,
    game_phase := gs.game_phase.value,
    pot_size := gs.pot_size,
    community_cards := gs.community_cards.map Card.to_dict,
    players := gs.players.map Player.to_dict,
    timer_remaining := gs.timer_remaining,
    available_actions := gs.available_actions,
    betting_options := gs.betting_options }

/-- `GameState.from_dict` (`data/models.py` lines 131-143):
`GamePhase(data["game_phase"])` raises on an unknown value, modelled by
`Option`. -/
def GameState.from_dict (d : GameStateDict) : Option GameState :=
  (GamePhase.ofValue d.game_phase).map fun phase =>
    { timestamp := d.timestamp,
      hand_id := d.hand_id,
      game_phase := phase,
      pot_size := d.pot_size,
      community_cards := d.community_cards.map Card.from_dict,
      players := d.players.map Player.from_dict,
      timer_remaining := d.timer_remaining,
      available_actions := d.available_actions,
      betting_options := d.betting_options }

/-- Deserializing a serialized card gives back the card. -/
theorem card_roundtrip (c : Card) : Card.from_dict (Card.to_dict c) = c := rfl

/-- Deserializing a serialized player gives back the player. -/
theorem player_roundtrip (p : Player) : Player.from_dict (Player.to_dict p) = p := by
  have h : Card.from_dict ∘ Card.to_dict = id := funext card_roundtrip
  cases p
  simp [Player.to_dict, Player.from_dict, List.map_map, h]

/-- The enum's value string parses back to the enum member. -/
theorem gamePhase_value_roundtrip (g : GamePhase) : GamePhase.ofValue g.value = some g := by
  cases g <;> rfl

/-- Deserializing a serialized game state recovers it exactly. -/
theorem gameState_from_to (gs : GameState) :
    GameState.from_dict (GameState.to_dict gs) = some gs := by
  have hc : Card.from_dict ∘ Card.to_dict = id := funext card_roundtrip
  have hp : Player.from_dict ∘ Player.to_dict = id := funext player_roundtrip
  cases gs
  simp [GameState.from_dict, GameState.to_dict, gamePhase_value_roundtrip,
    List.map_map, hc, hp]

/-- C9: serializing a `GameState` and deserializing it back succeeds and
yields a state with the same `hand_id`, the same phase, the community cards
in the same order and the players in the same order (hence the same order by
`position`). -/
theorem gameState_roundtrip (gs : GameState) :
    ∃ gs', GameState.from_dict (GameState.to_dict gs) = some gs' ∧
      gs'.hand_id = gs.hand_id ∧
      gs'.game_phase = gs.game_phase ∧
      gs'.community_cards = gs.community_cards ∧
      gs'.players = gs.players :=
  ⟨gs, gameState_from_to gs, rfl, rfl, rfl, rfl⟩

/-- The gating fields of `vision/ocr.py` `TextRecognizer`: whether `self.ocr`
is a live engine (`ocr_ready`, i.e. `self.ocr is not None`) and
`_last_ocr_time`, with `_ocr_timeout = 0.5` and the 1 s duration ceiling
fixed in `extract_text`. -/
structure OcrState where
  ocr_ready : Bool
  last_ocr_time : ℚ
deriving DecidableEq, Repr

/-- The size gate of `extract_text` (`vision/ocr.py` lines 92-96): with a
region `(x, y, w, h)` given, `w < 50 or h < 20` means the region is too
small for reliable OCR; with no region the gate is skipped. -/
def region_too_small (region : Option (ℤ × ℤ × ℤ × ℤ)) : Bool :=
  match region with
  | some (_, _, w, h) => w < 50 ∨ h < 20
  | none => false

/-- `vision/ocr.py` `TextRecognizer.extract_text` (lines 79-154), with the
engine call abstracted into its outcome: `primary` is `.error ()` when
`self.ocr.ocr(...)` raises and `.ok (duration, elems)` when it completes in
`duration` seconds producing the post-processed elements `elems`;
`fallback` is what `_fallback_ocr(image, region)` returns for this frame.
The result carries the returned elements, the new recognizer state and
whether the primary engine was invoked.  Check order as in the source:
rate limit, engine missing, region too small, then the call and its
duration ceiling; `_last_ocr_time` is stamped only after a primary call
within the ceiling. -/
def extract_text (st : OcrState) (current_time : ℚ)
    (region : Option (ℤ × ℤ × ℤ × ℤ))
    (primary : Except Unit (ℚ × List TextElement))
    (fallback : List TextElement) : List TextElement × OcrState × Bool :=
  if current_time - st.last_ocr_time < 1/2 then
    (fallback, st, false)
  else if st.ocr_ready = false then
    (fallback, st, false)
  else if region_too_small region then
    (fallback, st, false)
  else
    match primary with
    | Except.error _ => (fallback, st, true)
    | Except.ok (ocr_time, elems) =>
      if ocr_time > 1 then
        (fallback, st, true)
      else
        (elems, { st with last_ocr_time := current_time }, true)

/-- C7: the fallback is taken without invoking the primary recognizer when
(a) the engine failed to initialize, (b) the previous primary call is more
recent than the 0.5 s minimum interval, or (c) the target region is smaller
than the minimum usable size (`w < 50` or `h < 20`, e.g. 30×15); and when
the primary recognizer does run but exceeds the 1 s ceiling, the fallback
result is returned and the rate-limit timestamp stays unchanged. -/
theorem extract_text_gating (st : OcrState) (current_time : ℚ)
    (region : Option (ℤ × ℤ × ℤ × ℤ))
    (primary : Except Unit (ℚ × List TextElement))
    (fallback elems : List TextElement) (x y w h : ℤ) (ocr_time : ℚ) :
    (st.ocr_ready = false →
      extract_text st current_time region primary fallback = (fallback, st, false)) ∧
    (current_time - st.last_ocr_time < 1/2 →
      extract_text st current_time region primary fallback = (fallback, st, false)) ∧
    (w < 50 ∨ h < 20 →
      extract_text st current_time (some (x, y, w, h)) primary fallback =
        (fallback, st, false)) ∧
    (¬ current_time - st.last_ocr_time < 1/2 → st.ocr_ready = true →
      ¬ (w < 50 ∨ h < 20) → ocr_time > 1 →
      extract_text st current_time (some (x, y, w, h))
        (Except.ok (ocr_time, elems)) fallback = (fallback, st, true)) := by
  refine ⟨?_, ?_, ?_, ?_⟩
  · intro hready
    unfold extract_text
    by_cases hrate : current_time - st.last_ocr_time < 1/2
    · rw [if_pos hrate]
    · rw [if_neg hrate, if_pos (by simp [hready])]
  · intro hrate
    unfold extract_text
    rw [if_pos hrate]
  · intro hsmall
    have hb : region_too_small (some (x, y, w, h)) = true := by
      rcases hsmall with h1 | h1 <;> simp [region_too_small, h1]
    unfold extract_text
    by_cases hrate : current_time - st.last_ocr_time < 1/2
    · rw [if_pos hrate]
    · rw [if_neg hrate]
      by_cases hready : st.ocr_ready = false
      · rw [if_pos hready]
      · rw [if_neg hready, if_pos hb]
  · intro hrate hready hsmall htime
    have hb : ¬ region_too_small (some (x, y, w, h)) = true := by
      simp only [region_too_small, decide_eq_true_eq, Bool.or_eq_true]
      exact hsmall
    unfold extract_text
    rw [if_neg hrate, if_neg (by simp [hready]), if_neg hb]
    exact if_pos htime

/-- Witness for C7: with a live engine and no rate limiting, a 30×15 region
takes the fallback path without running the primary recognizer, and a 2 s
primary call over a large region is discarded for the fallback with the
timestamp unchanged. -/
theorem extract_text_gating_witness :
    extract_text ⟨true, 0⟩ 10 (some (0, 0, 30, 15))
      (Except.ok (0, [])) [] = ([], ⟨true, 0⟩, false) ∧
    extract_text ⟨true, 0⟩ 10 (some (0, 0, 100, 40))
      (Except.ok (2, [])) [] = ([], ⟨true, 0⟩, true) :=
  ⟨(extract_text_gating ⟨true, 0⟩ 10 (some (0, 0, 30, 15)) (Except.ok (0, []))
      [] [] 0 0 30 15 0).2.2.1 (by norm_num),
   (extract_text_gating ⟨true, 0⟩ 10 (some (0, 0, 100, 40)) (Except.ok (2, []))
      [] [] 0 0 100 40 2).2.2.2 (by norm_num) rfl (by norm_num) (by norm_num)⟩

/-- `TextRecognizer.patterns["player_name"]` (`vision/ocr.py` line 36):
the regex `^[A-Za-z0-9_]+$`. -/
def player_name_pattern (s : String) : Bool :=
  !s.isEmpty && s.toList.all (fun c => c.isAlphanum || c = '_')

/-- `TextRecognizer.patterns["stack_size"]` (`vision/ocr.py` line 33):
the regex `^\d+$`. -/
def stack_size_pattern (s : String) : Bool :=
  !s.isEmpty && s.toList.all Char.isDigit

/-- The `player_{0,1,2}` entries of
`settings.game_client.table_regions` (`config/settings.py` lines 47-54);
`self.regions[f"player_{position}"]` raises for any other seat, modelled as
`none`. -/
def table_regions_player (position : Nat) : Option (ℤ × ℤ × ℤ × ℤ) :=
  match position with
  | 0 => some (475, 500, 350, 200)
  | 1 => some (250, 200, 350, 200)
  | 2 => some (900, 200, 350, 200)
  | _ => none

/-- `vision/state_parser.py`
`GameStateParser._extract_name_from_text_elements` (lines 190-200): the
first element whose center lies in the name sub-region and that passes the
name pattern with confidence above 0.6.  Python `//` is floor division,
`Int.fdiv`. -/
def extract_name_from_text_elements (text_elements : List TextElement)
    (region : ℤ × ℤ × ℤ × ℤ) : Option String :=
  let (x, y, w, h) := region
  let name_region := (x, y, w.fdiv 2, h.fdiv 3)
  text_elements.findSome? fun e =>
    if is_in_region e.center name_region ∧ player_name_pattern e.text ∧
        e.confidence > 6/10 then
      some e.text
    else
      none

/-- `vision/state_parser.py`
`GameStateParser._extract_stack_from_text_elements` (lines 202-215):
like the name extraction but over the stack sub-region with threshold 0.7,
parsing the text as an integer and skipping elements whose text fails to
parse. -/
def extract_stack_from_text_elements (text_elements : List TextElement)
    (region : ℤ × ℤ × ℤ × ℤ) : Option ℤ :=
  let (x, y, w, h) := region
  let stack_region := (x, y + h.fdiv 2, w.fdiv 2, h.fdiv 3)
  text_elements.findSome? fun e =>
    if is_in_region e.center stack_region ∧ stack_size_pattern e.text ∧
        e.confidence > 7/10 then
      (e.text.toNat?).map (fun n => (n : ℤ))
    else
      none

/-- `vision/state_parser.py` `GameStateParser._extract_player_bet`
(lines 329-332): the MVP always reports no bet. -/
def extract_player_bet : Option ℤ := none

/-- `vision/state_parser.py`
`GameStateParser._extract_single_player_optimized` (lines 141-188).
Image-dependent inputs (detected hole cards, the active/current status
analysis) are passed in; the name/stack/bet observations and their
fall-back defaults follow the source.  A `None` name observation can only
be `None` (never the empty string, which the patterns exclude), so Python's
`if not name` test coincides with the `is None` test modelled by `getD`. -/
def extract_single_player_optimized (position : Nat)
    (player_text : List TextElement) (hole_cards : List Card)
    (is_active is_current : Bool) : Option Player :=
  match table_regions_player position with
  | none => none
  | some region =>
    some { position := (position : ℤ),
           name := (extract_name_from_text_elements player_text region).getD
             ("Player_" ++ toString position),
           stack_size := (extract_stack_from_text_elements player_text region).getD 0,
           hole_cards := hole_cards,
           current_bet := extract_player_bet.getD 0,
           is_active := is_active,
           is_current := is_current }

/-- `vision/state_parser.py` `GameStateParser._extract_players_optimized`
(lines 130-139): seats 0, 1, 2 in order, appending each seat's `Player`
when one is produced. -/
def extract_players_optimized (texts : Nat → List TextElement)
    (holes : Nat → List Card) (actives currents : Nat → Bool) : List Player :=
  (List.range 3).filterMap fun position =>
    extract_single_player_optimized position (texts position) (holes position)
      (actives position) (currents position)

/-- C8: every seat 0-2 always yields a `Player`; a missing or
below-threshold name observation degrades to the placeholder
`Player_{position}`, a missing stack observation to stack 0, and the bet
observation (always absent in the source) to bet 0 — and the seat is never
omitted: the reconstructed players list always has all 3 seats. -/
theorem extract_player_uses_defaults (pos : Nat) (hpos : pos < 3)
    (player_text : List TextElement) (hole_cards : List Card)
    (act cur : Bool) (texts : Nat → List TextElement)
    (holes : Nat → List Card) (acts curs : Nat → Bool) :
    (∃ region p,
      table_regions_player pos = some region ∧
      extract_single_player_optimized pos player_text hole_cards act cur = some p ∧
      p.position = (pos : ℤ) ∧
      p.hole_cards = hole_cards ∧
      p.current_bet = 0 ∧
      (extract_name_from_text_elements player_text region = none →
        p.name = "Player_" ++ toString pos) ∧
      (extract_stack_from_text_elements player_text region = none →
        p.stack_size = 0)) ∧
    (extract_players_optimized texts holes acts curs).length = 3 := by
  constructor
  · interval_cases pos <;>
      exact ⟨_, _, rfl, rfl, rfl, rfl, rfl,
        fun hname => by simp [extract_single_player_optimized, table_regions_player, hname],
        fun hstack => by simp [extract_single_player_optimized, table_regions_player, hstack]⟩
  · simp [extract_players_optimized, extract_single_player_optimized,
      table_regions_player, List.range_succ]

/-- Witness for C8: seat 1 with no usable observations at all still appears,
with the placeholder name and zero stack and bet. -/
theorem extract_player_uses_defaults_witness :
    ((∃ region p,
      table_regions_player 1 = some region ∧
      extract_single_player_optimized 1 [] [] true false = some p ∧
      p.position = ((1 : Nat) : ℤ) ∧
      p.hole_cards = [] ∧
      p.current_bet = 0 ∧
      (extract_name_from_text_elements [] region = none →
        p.name = "Player_" ++ toString 1) ∧
      (extract_stack_from_text_elements [] region = none →
        p.stack_size = 0)) ∧
    (extract_players_optimized (fun _ => []) (fun _ => [])
      (fun _ => true) (fun _ => false)).length = 3) ∧
    extract_single_player_optimized 1 [] [] true false =
      some { position := 1, name := "Player_1", stack_size := 0,
             hole_cards := [], current_bet := 0, is_active := true,
             is_current := false } :=
  ⟨extract_player_uses_defaults 1 (by decide) [] [] true false
      (fun _ => []) (fun _ => []) (fun _ => true) (fun _ => false),
   rfl⟩

/-- The deduplication-relevant fields of `data/error_logger.py`
`ErrorRecord`: the four key fields plus the occurrence counter and the
first/last timestamps (`ℚ` wall-clock instants).  Severity, category, stack
trace and context do not participate in deduplication and are omitted. -/
structure ErrRecord where
  component : String
  function : String
  exception_type : String
  message : String
  occurrence_count : Nat
  first_seen : ℚ
  last_seen : ℚ
deriving DecidableEq, Repr

/-- One row of the `error_logs` table (`data/error_logger.py`
`_init_database`), restricted to the modelled columns; `id` is the
autoincrement primary key. -/
structure DbRow where
  id : Nat
  component : String
  function : String
  exception_type : String
  message : String
  occurrence_count : Nat
  first_seen : ℚ
  last_seen : ℚ
deriving DecidableEq, Repr

/-- The state of `EnhancedErrorLogger`: the in-memory `_error_cache`
keyed by the dedup hash string, the `error_logs` table in insertion order,
and the next autoincrement id (sqlite starts at 1). -/
structure LoggerState where
  cache : List (String × ErrRecord)
  db : List DbRow
  next_id : Nat
deriving DecidableEq, Repr

/-- A fresh logger over an empty database. -/
def empty_logger_state : LoggerState := { cache := [], db := [], next_id := 1 }

/-- `data/error_logger.py` `EnhancedErrorLogger._generate_error_hash`
(lines 163-166): the cache key is
`f"{component}:{function}:{exception_type}:{message[:100]}"` passed through
Python's `hash`.  Equal key strings give equal cache keys; the model keys
the cache by the string itself, which matches the source up to `hash`
collisions between distinct strings. -/
def generate_error_hash (r : ErrRecord) : String :=
  r.component ++ ":" ++ r.function ++ ":" ++ r.exception_type ++ ":" ++ r.message.take 100

/-- The `WHERE` clause of the dedup lookup in `_save_error_to_db`
(lines 244-249): exact match on all four key columns. -/
def same_db_key (row : DbRow) (r : ErrRecord) : Bool :=
  row.component == r.component && row.function == r.function &&
    row.exception_type == r.exception_type && row.message == r.message

/-- `data/error_logger.py` `EnhancedErrorLogger._save_error_to_db`
(lines 240-289): if a row with the record's exact key exists, update its
`occurrence_count` and `last_seen` from the record (the `context_json`
column is outside the model); otherwise insert a new row carrying the
record's fields.  Returns the new state and the row id.  The source orders
the lookup by `last_seen DESC LIMIT 1`; with at most one row per exact key
the first match is that row. -/
def save_error_to_db (st : LoggerState) (r : ErrRecord) : LoggerState × Nat :=
  match st.db.find? (fun row => same_db_key row r) with
  | some row =>
    ({ st with
        db := st.db.map fun row' =>
          if row'.id = row.id then
            { row' with occurrence_count := r.occurrence_count, last_seen := r.last_seen }
          else row' },
     row.id)
  | none =>
    ({ st with
        db := st.db ++
          [{ id := st.next_id, component := r.component, function := r.function,
             exception_type := r.exception_type, message := r.message,
             occurrence_count := r.occurrence_count, first_seen := r.first_seen,
             last_seen := r.last_seen }],
        next_id := st.next_id + 1 },
     st.next_id)

/-- `data/error_logger.py` `EnhancedErrorLogger.log_error` (lines 168-238),
restricted to its deduplication effect: build the record stamped `now`,
look its hash key up in the in-memory cache — on a hit increment the cached
record's `occurrence_count` and refresh `last_seen`, on a miss cache the
fresh record — then persist the resulting record through
`_save_error_to_db`. -/
def log_error (st : LoggerState) (now : ℚ)
    (component function exception_type message : String) : LoggerState × Nat :=
  let record : ErrRecord :=
    { component := component, function := function,
      exception_type := exception_type, message := message,
      occurrence_count := 1, first_seen := now, last_seen := now }
  let key := generate_error_hash record
  match st.cache.find? (fun kv => kv.1 == key) with
  | some kv =>
    let updated :=
      { kv.2 with occurrence_count := kv.2.occurrence_count + 1, last_seen := now }
    save_error_to_db
      { st with cache := st.cache.map fun kv' => if kv'.1 == key then (kv'.1, updated) else kv' }
      updated
  | none =>
    save_error_to_db { st with cache := (key, record) :: st.cache } record

/-- No two rows of the table share the exact dedup key. -/
def no_dup_key (db : List DbRow) : Prop :=
  db.Pairwise fun r r' =>
    ¬ (r.component = r'.component ∧ r.function = r'.function ∧
       r.exception_type = r'.exception_type ∧ r.message = r'.message)

/-- `_save_error_to_db` never creates a second row for an exact key that
already has one: it updates in place on a hit and inserts only keys the
table lacks. -/
theorem save_error_preserves_no_dup (st : LoggerState) (r : ErrRecord)
    (h : no_dup_key st.db) : no_dup_key ((save_error_to_db st r).1).db := by
  unfold save_error_to_db
  split
  · rename_i row hfind
    show no_dup_key (st.db.map _)
    unfold no_dup_key at h ⊢
    rw [List.pairwise_map]
    refine h.imp ?_
    intro a b hab hk
    apply hab
    by_cases ha : a.id = row.id <;> by_cases hb : b.id = row.id <;>
      simp [ha, hb] at hk <;> exact hk
  · rename_i hfind
    show no_dup_key (st.db ++ [_])
    unfold no_dup_key at h ⊢
    rw [List.pairwise_append]
    refine ⟨h, List.pairwise_singleton _ _, ?_⟩
    intro a ha b hb
    simp only [List.mem_singleton] at hb
    subst hb
    have hnot := List.find?_eq_none.mp hfind a ha
    simp only [same_db_key, Bool.and_eq_true, beq_iff_eq] at hnot
    intro hk
    obtain ⟨h1, h2, h3, h4⟩ := hk
    exact hnot ⟨⟨⟨h1, h2⟩, h3⟩, h4⟩

/-- A 100-character message prefix shared by the two counterexample
messages. -/
def sharedPrefix100 : String := String.mk (List.replicate 100 'a')

/-- A 101-character message. -/
def msgA : String := sharedPrefix100 ++ "X"

/-- A different 101-character message agreeing with `msgA` on the first 100
characters. -/
def msgB : String := sharedPrefix100 ++ "Y"

/-- The store after logging `msgA` once into an empty store. -/
def loggerAfterFirst : LoggerState :=
  (log_error empty_logger_state 1 "capture" "grab" "OSError" msgA).1

/-- The store after then logging `msgB`, a distinct key sharing the 100-char
message prefix. -/
def loggerAfterSecond : LoggerState :=
  (log_error loggerAfterFirst 2 "capture" "grab" "OSError" msgB).1

set_option maxRecDepth 40000 in
/-- Counterexample to C5 as stated: the second call carries the previously
unseen key `("capture", "grab", "OSError", msgB)`, yet it inserts no new
record — the store still holds a single row, that row's message is `msgA`,
and its `occurrence_count` was bumped to 2, because the in-memory cache
keys on the message truncated to 100 characters. -/
theorem log_error_truncated_key_collision :
    msgA ≠ msgB ∧
    loggerAfterSecond.db.length = 1 ∧
    loggerAfterSecond.db.find? (fun row => row.message == msgB) = none ∧
    loggerAfterSecond.db.map (fun row => (row.message, row.occurrence_count)) =
      [(msgA, 2)] := by
  decide

/-- C5 (amended): logging the same full key twice into an empty store leaves
exactly one record with `occurrence_count = 2`, `first_seen` from the first
call and `last_seen` from the second; a call whose truncated cache key
(message cut to 100 characters) is also unseen inserts a new record with
`occurrence_count = 1`; and no call ever creates a second row for an exact
key the table already holds. -/
theorem log_error_dedup (c f e m : String) (t1 t2 : ℚ) :
    ((log_error empty_logger_state t1 c f e m).1).db =
      [{ id := 1, component := c, function := f, exception_type := e, message := m,
         occurrence_count := 1, first_seen := t1, last_seen := t1 }] ∧
    ((log_error ((log_error empty_logger_state t1 c f e m).1) t2 c f e m).1).db =
      [{ id := 1, component := c, function := f, exception_type := e, message := m,
         occurrence_count := 2, first_seen := t1, last_seen := t2 }] ∧
    (∀ st : LoggerState, no_dup_key st.db →
      no_dup_key (((log_error st t1 c f e m).1).db)) := by
  have h1 : log_error empty_logger_state t1 c f e m =
      ({ cache := [(generate_error_hash
            { component := c, function := f, exception_type := e, message := m,
              occurrence_count := 1, first_seen := t1, last_seen := t1 },
          { component := c, function := f, exception_type := e, message := m,
            occurrence_count := 1, first_seen := t1, last_seen := t1 })],
         db := [{ id := 1, component := c, function := f, exception_type := e,
                  message := m, occurrence_count := 1, first_seen := t1,
                  last_seen := t1 }],
         next_id := 2 }, 1) := by
    simp [log_error, save_error_to_db, empty_logger_state]
  refine ⟨by rw [h1], ?_, ?_⟩
  · rw [h1]
    simp [log_error, save_error_to_db, generate_error_hash, same_db_key]
  · intro st hnd
    simp only [log_error]
    split
    · exact save_error_preserves_no_dup _ _ hnd
    · exact save_error_preserves_no_dup _ _ hnd

/-- Witness for amended C5: two identical capture errors collapse into one
row with count 2, and the no-duplicate invariant holds concretely. -/
theorem log_error_dedup_witness :
    ((log_error ((log_error empty_logger_state 1 "vision" "parse" "ValueError"
        "bad frame").1) 2 "vision" "parse" "ValueError" "bad frame").1).db =
      [{ id := 1, component := "vision", function := "parse",
         exception_type := "ValueError", message := "bad frame",
         occurrence_count := 2, first_seen := 1, last_seen := 2 }] ∧
    no_dup_key (((log_error empty_logger_state 1 "vision" "parse" "ValueError"
        "bad frame").1).db) :=
  ⟨(log_error_dedup "vision" "parse" "ValueError" "bad frame" 1 2).2.1,
   (log_error_dedup "vision" "parse" "ValueError" "bad frame" 1 2).2.2
     empty_logger_state List.Pairwise.nil⟩
